import Mathlib

/-!
Verification of the game-archive catalog service and browser.

Server model: the `/videogames` route of `src/backend/server.js` builds a SQL
query from the request's optional filter parameters (`title`, `developer`,
`publisher`, `genre`, `platform`), pushing one `<field> LIKE ?` fragment and
one `%value%` bound parameter per truthy field, and sends it to a MySQL store.
The store itself is external to the repository, so its evaluation of the
resulting `WHERE ... LIKE ...` predicate is modelled from MySQL's documented
LIKE semantics (case-insensitive under the default collation; `%` matches any
sequence of characters, `_` exactly one, backslash escapes the next character).

Client model: the `GameList` component of `src/frontend/src/GameList.jsx`,
embedded as explicit state (`ClientState`) with each handler a function from
state to state, paired with the server request it issues (if any).
-/

/-- The five filterable columns of the `videogames` table. -/
inductive GameField
  | title
  | developer
  | publisher
  | genre
  | platform
deriving DecidableEq

/-- One catalog row, as selected by `SELECT * FROM videogames`.
`release_date` is the parsed calendar date as a timestamp (the JS client
compares `new Date(game.release_date)` values numerically). -/
structure GameRecord where
  id : Nat
  title : String
  developer : String
  publisher : String
  genre : String
  platform : String
  release_date : Int
  artwork_url : String
deriving DecidableEq

/-- Project a filterable column out of a row. -/
def fieldOf : GameField → GameRecord → String
  | .title, r => r.title
  | .developer, r => r.developer
  | .publisher, r => r.publisher
  | .genre, r => r.genre
  | .platform, r => r.platform

/-- The query parameters of a `GET /videogames` request:
`none` models an omitted parameter (`undefined` after destructuring
`req.query`), `some s` a supplied value. -/
structure VideogamesQuery where
  title : Option String
  developer : Option String
  publisher : Option String
  genre : Option String
  platform : Option String
deriving DecidableEq

/-- JS truthiness of an optional string: `undefined` and `''` are falsy,
any other string is truthy.  This is the test `if (title)` performs in
`server.js`. -/
def jsTruthy : Option String → Bool
  | none => false
  | some s => !(s == "")

/-- The request with no filter parameters. -/
def emptyQuery : VideogamesQuery := ⟨none, none, none, none, none⟩

/-- The ordered list of active filters (field, supplied value), exactly the
lockstep `conditions.push(...)` / `queryParams.push(...)` pairs of
`server.js` lines 119-138: one entry per truthy parameter, in the fixed
order title, developer, publisher, genre, platform. -/
def activeFilters (q : VideogamesQuery) : List (GameField × String) :=
  (if jsTruthy q.title then [(GameField.title, q.title.getD "")] else []) ++
  (if jsTruthy q.developer then [(GameField.developer, q.developer.getD "")] else []) ++
  (if jsTruthy q.publisher then [(GameField.publisher, q.publisher.getD "")] else []) ++
  (if jsTruthy q.genre then [(GameField.genre, q.genre.getD "")] else []) ++
  (if jsTruthy q.platform then [(GameField.platform, q.platform.getD "")] else [])

/-- The fixed SQL fragment pushed onto `conditions` for each field. -/
def condSql : GameField → String
  | .title => "title LIKE ?"
  | .developer => "developer LIKE ?"
  | .publisher => "publisher LIKE ?"
  | .genre => "genre LIKE ?"
  | .platform => "platform LIKE ?"

/-- The SQL text built by `server.js` lines 113-140: the base select, plus
`' WHERE '` and the `' AND '`-join of the condition fragments when at least
one parameter is truthy. -/
def videogamesQueryText (q : VideogamesQuery) : String :=
  if jsTruthy q.title || jsTruthy q.developer || jsTruthy q.publisher ||
      jsTruthy q.genre || jsTruthy q.platform then
    "SELECT * FROM videogames" ++ " WHERE " ++
      String.intercalate " AND " ((activeFilters q).map (fun c => condSql c.1))
  else
    "SELECT * FROM videogames"

/-- The bound-parameter list built by `server.js`: each supplied value wrapped
as `%value%`, in condition order. -/
def videogamesQueryParams (q : VideogamesQuery) : List String :=
  (activeFilters q).map (fun c => "%" ++ c.2 ++ "%")

/-- All suffixes of a character list (the list itself included, ending with
the empty suffix). -/
def tailsList : List Char → List (List Char)
  | [] => [[]]
  | c :: cs => (c :: cs) :: tailsList cs

/-- Modelled from MySQL's documented LIKE semantics (the store is external to
the repository): `%` matches any sequence of characters, `_` exactly one
character, backslash escapes the following character, every other character
matches itself.  First argument is the pattern, second the subject. -/
def likeM : List Char → List Char → Bool
  | [], s => s.isEmpty
  | '%' :: ps, s => (tailsList s).any (fun t => likeM ps t)
  | '_' :: ps, s =>
    match s with
    | [] => false
    | _ :: cs => likeM ps cs
  | '\\' :: c :: ps, s =>
    match s with
    | [] => false
    | d :: ds => d == c && likeM ps ds
  | c :: ps, s =>
    match s with
    | [] => false
    | d :: ds => d == c && likeM ps ds

/-- Lower-case a string character by character (ASCII letter folding). -/
def lowerStr (s : String) : String := ⟨s.data.map Char.toLower⟩

/-- `column LIKE pat` under MySQL's default case-insensitive collation:
LIKE matching of the lower-cased pattern against the lower-cased subject. -/
def sqlLike (pat subj : String) : Bool :=
  likeM (lowerStr pat).data (lowerStr subj).data

/-- The store's evaluation of the query built for `GET /videogames`: the rows
of the table, in table order, that satisfy every `field LIKE %value%`
condition bound by `activeFilters`. -/
def runVideogames (db : List GameRecord) (q : VideogamesQuery) : List GameRecord :=
  db.filter (fun r =>
    (activeFilters q).all (fun c => sqlLike ("%" ++ c.2 ++ "%") (fieldOf c.1 r)))

-- sanity checks (store model)
example : sqlLike "%mario%" "Super Mario Bros" = true := by decide
example : sqlLike "%a_c%" "abc" = true := by decide
example : sqlLike "% %" "Sonic" = false := by decide

/-- Outcome of `connection.query` for a by-id route: either the selected rows
or a store failure (the `catch` branch). -/
inductive QueryOutcome (α : Type)
  | ok (rows : List α)
  | failed
deriving DecidableEq

/-- Body of a JSON response sent by a route of `server.js`. -/
inductive ResponseBody
  | record (r : GameRecord)
  | message (m : String)
  | artworkUrl (u : String)
  | dbError (e : String)
deriving DecidableEq

/-- An HTTP response: status code plus JSON body.  `res.json(x)` with no
`res.status(...)` call leaves the Express default status 200. -/
structure HttpResponse where
  status : Nat
  body : ResponseBody
deriving DecidableEq

/-- The store's evaluation of `SELECT * FROM videogames WHERE id = ?`. -/
def selectById (db : List GameRecord) (gid : Nat) : List GameRecord :=
  db.filter (fun r => r.id == gid)

/-- The store's evaluation of
`SELECT artwork_url FROM videogames WHERE id = ?`. -/
def selectArtworkById (db : List GameRecord) (gid : Nat) : List String :=
  (db.filter (fun r => r.id == gid)).map (fun r => r.artwork_url)

/-- `GET /videogames/:id` (`server.js` lines 93-106): 500 with an error body
on store failure; `res.json({ message: 'Game not found' })` (default status
200) when no row matches; otherwise the first row as JSON. -/
def getVideogameById (outcome : QueryOutcome GameRecord) : HttpResponse :=
  match outcome with
  | .failed => ⟨500, .dbError "Database error"⟩
  | .ok [] => ⟨200, .message "Game not found"⟩
  | .ok (r :: _) => ⟨200, .record r⟩

/-- `GET /videogames/:id/artwork` (`server.js` lines 156-170): 500 with an
error body on store failure; `res.status(404).json({ message: 'Game not
found' })` when no row matches; otherwise the artwork URL. -/
def getVideogameArtwork (outcome : QueryOutcome String) : HttpResponse :=
  match outcome with
  | .failed => ⟨500, .dbError "Database error"⟩
  | .ok [] => ⟨404, .message "Game not found"⟩
  | .ok (u :: _) => ⟨200, .artworkUrl u⟩

/-- The client's per-field search inputs (`searchCriteria` state in
`GameList.jsx`), all fields defaulting to the empty string. -/
structure SearchCriteria where
  title : String
  developer : String
  publisher : String
  genre : String
  platform : String
deriving DecidableEq

/-- The all-empty criteria, the component's initial state and the value
`handleClear` resets to. -/
def emptyCriteria : SearchCriteria := ⟨"", "", "", "", ""⟩

/-- JS truthiness of a plain string (`Boolean(s)`): only `''` is falsy. -/
def jsTruthyStr (s : String) : Bool := !(s == "")

/-- Whether `needle` occurs inside `hay` (character-list infix test),
the semantics of JS `String.prototype.includes`. -/
def hasInfix : List Char → List Char → Bool
  | [], needle => needle.isEmpty
  | c :: t, needle => needle.isPrefixOf (c :: t) || hasInfix t needle

/-- JS `hay.toLowerCase().includes(needle.toLowerCase())`: case-insensitive
substring containment, as used by the client-side filter in `GameList.jsx`
(and the matching notion the spec describes for the server). -/
def containsCI (hay needle : String) : Bool :=
  hasInfix (lowerStr hay).data (lowerStr needle).data

/-- The client-side predicate of `handleSearch` (`GameList.jsx` lines 91-99):
for each field, either the criterion is falsy or the record's field contains
it case-insensitively. -/
def clientMatches (c : SearchCriteria) (g : GameRecord) : Bool :=
  (!jsTruthyStr c.title || containsCI g.title c.title) &&
  (!jsTruthyStr c.developer || containsCI g.developer c.developer) &&
  (!jsTruthyStr c.publisher || containsCI g.publisher c.publisher) &&
  (!jsTruthyStr c.genre || containsCI g.genre c.genre) &&
  (!jsTruthyStr c.platform || containsCI g.platform c.platform)

/-- The `GameList` component's state (`useState` hooks of `GameList.jsx`). -/
structure ClientState where
  videoGamesData : List GameRecord
  filteredGames : List GameRecord
  localFilteredGames : List GameRecord
  searchCriteria : SearchCriteria
  selectedGameArtwork : Option String
  noResultsMessage : String
  isTyping : Bool
deriving DecidableEq

/-- JS string startsWith over character lists (`String.prototype.startsWith`). -/
def strStartsWith (s pre : String) : Bool := pre.data.isPrefixOf s.data

/-- `handleSearch` (`GameList.jsx` lines 81-107) as a state transition paired
with the criteria handed to the debounced server search (`none` when the
all-empty guard returns early and no request is issued). -/
def handleSearch (s : ClientState) : ClientState × Option SearchCriteria :=
  if !(jsTruthyStr s.searchCriteria.title || jsTruthyStr s.searchCriteria.developer ||
        jsTruthyStr s.searchCriteria.publisher || jsTruthyStr s.searchCriteria.genre ||
        jsTruthyStr s.searchCriteria.platform) then
    ({ s with filteredGames := [], localFilteredGames := [],
              noResultsMessage := "Please enter search criteria" }, none)
  else
    ({ s with
        localFilteredGames := s.videoGamesData.filter (clientMatches s.searchCriteria),
        noResultsMessage :=
          if (s.videoGamesData.filter (clientMatches s.searchCriteria)).length == 0 then
            "No results found that met search criteria"
          else "" },
      some s.searchCriteria)

/-- Outcome of the axios call inside `debouncedServerSearch`. -/
inductive FetchResult
  | success (data : List GameRecord)
  | failure
deriving DecidableEq

/-- The completion handler of `debouncedServerSearch` (`GameList.jsx` lines
50-70): a successful array response replaces `filteredGames` and clears
`isTyping`, unconditionally — no request token is compared; the `catch`
branch only calls `console.error`, changing no state. -/
def debouncedServerSearchApply (s : ClientState) : FetchResult → ClientState
  | .success data => { s with filteredGames := data, isTyping := false }
  | .failure => s

/-- The rows rendered in the table body (`GameList.jsx` line 198):
`isTyping ? localFilteredGames : filteredGames`. -/
def displayedGames (s : ClientState) : List GameRecord :=
  if s.isTyping then s.localFilteredGames else s.filteredGames

/-- Comparator of `handleSortByTitle`: `a.title.localeCompare(b.title) <= 0`,
modelled as lexicographic string order. -/
def titleLe (a b : GameRecord) : Bool := decide (a.title ≤ b.title)

/-- Comparator of `handleSortByReleaseDate`:
`new Date(a.release_date) - new Date(b.release_date) <= 0`. -/
def dateLe (a b : GameRecord) : Bool := decide (a.release_date ≤ b.release_date)

/-- `handleSortByTitle` (`GameList.jsx` lines 117-120): stable sort of
`filteredGames` by title (JS `Array.prototype.sort` is stable); issues no
server request. -/
def handleSortByTitle (s : ClientState) : ClientState × Option SearchCriteria :=
  ({ s with filteredGames := s.filteredGames.mergeSort titleLe }, none)

/-- `handleSortByReleaseDate` (`GameList.jsx` lines 123-126): stable sort of
`filteredGames` by release date; issues no server request. -/
def handleSortByReleaseDate (s : ClientState) : ClientState × Option SearchCriteria :=
  ({ s with filteredGames := s.filteredGames.mergeSort dateLe }, none)

/-- `handleTitleClick` (`GameList.jsx` lines 129-135): pass `artwork_url`
through when it starts with `"http"`, otherwise prepend the static-asset
base (`process.env.PUBLIC_URL`) and a slash. -/
def handleTitleClick (publicUrl : String) (s : ClientState) (artworkUrl : String) :
    ClientState :=
  if strStartsWith artworkUrl "http" then
    { s with selectedGameArtwork := some artworkUrl }
  else
    { s with selectedGameArtwork := some (publicUrl ++ "/" ++ artworkUrl) }

/-- `handleCloseArtwork` (`GameList.jsx` lines 138-140): clear the selection. -/
def handleCloseArtwork (s : ClientState) : ClientState :=
  { s with selectedGameArtwork := none }

/-- Follows the spec's words, for comparison with the code: the spec calls
`artwork_url` an "absolute URL or relative path", the absolute case
exemplified by `http://x/y.png`; an absolute URL is scheme-qualified. -/
def isAbsoluteUrl (u : String) : Bool :=
  strStartsWith u "http://" || strStartsWith u "https://"

-- sanity checks (client model)
example : containsCI "Super Mario Bros" "mario" = true := by decide
example : strStartsWith "http://x/y.png" "http" = true := by decide
example : strStartsWith "httpcover.png" "http" = true := by decide
example : isAbsoluteUrl "httpcover.png" = false := by decide

/-- Concrete catalog row used in concrete instantiations. -/
def recMario : GameRecord :=
  ⟨1, "Super Mario Bros", "Nintendo", "Nintendo", "Platformer", "NES",
    489024000000, "http://img/mario.png"⟩

/-- Concrete catalog row used in concrete instantiations. -/
def recSonic : GameRecord :=
  ⟨2, "Sonic the Hedgehog", "Sonic Team", "Sega", "Platformer", "Genesis",
    677721600000, "sonic.png"⟩

/-- Concrete catalog row whose title has no space and no LIKE wildcard. -/
def recAbc : GameRecord := ⟨3, "abc", "dev", "pub", "rpg", "pc", 0, "abc.png"⟩

/-- A concrete client state with results on display. -/
def demoState : ClientState :=
  ⟨[recMario, recSonic], [recMario], [], emptyCriteria, none, "", false⟩

/-- A concrete client state whose criteria are all empty. -/
def demoEmptyCriteriaState : ClientState :=
  ⟨[recMario, recSonic], [recMario], [recSonic], emptyCriteria, none, "old", true⟩

/-- Read one filter parameter of a `GET /videogames` request. -/
def getQField : GameField → VideogamesQuery → Option String
  | .title, q => q.title
  | .developer, q => q.developer
  | .publisher, q => q.publisher
  | .genre, q => q.genre
  | .platform, q => q.platform

/-- Replace one filter parameter of a `GET /videogames` request. -/
def setQField : GameField → Option String → VideogamesQuery → VideogamesQuery
  | .title, v, q => { q with title := v }
  | .developer, v, q => { q with developer := v }
  | .publisher, v, q => { q with publisher := v }
  | .genre, v, q => { q with genre := v }
  | .platform, v, q => { q with platform := v }

/-- Count occurrences of a character in a string (used to count the `?`
placeholders of the built SQL text). -/
def countChar (c : Char) (s : String) : Nat := s.data.count c

/-- The artwork reference the modal displays for a clicked title: the URL
itself when it starts with `"http"`, otherwise the static-asset base, a
slash, and the relative path. -/
def resolveArtwork (publicUrl url : String) : String :=
  if strStartsWith url "http" then url else publicUrl ++ "/" ++ url

/-- Request filtering only on title, with a value holding a LIKE wildcard. -/
def qUnderscore : VideogamesQuery := ⟨some "a_c", none, none, none, none⟩

/-- Request whose only parameter is supplied but empty. -/
def qEmptyTitle : VideogamesQuery := ⟨some "", none, none, none, none⟩

/-- Request whose only parameter is whitespace-only. -/
def qWhitespaceTitle : VideogamesQuery := ⟨some " ", none, none, none, none⟩

/-- Request filtering on title with a plain non-empty value. -/
def qMario : VideogamesQuery := ⟨some "mario", none, none, none, none⟩

/-- Request filtering on title with a different plain non-empty value. -/
def qZelda : VideogamesQuery := ⟨some "zelda", none, none, none, none⟩

/-- Request filtering on title with a one-character value. -/
def qTitleA : VideogamesQuery := ⟨some "a", none, none, none, none⟩

/-- Claim C4: for every search criteria in which every field is the empty
string, the Search action clears both result lists, surfaces the
"Please enter search criteria" prompt state, and hands nothing to the
debounced server search (no request is sent). -/
theorem spec_C4 (s : ClientState)
    (ht : s.searchCriteria.title = "") (hd : s.searchCriteria.developer = "")
    (hp : s.searchCriteria.publisher = "") (hg : s.searchCriteria.genre = "")
    (hpl : s.searchCriteria.platform = "") :
    handleSearch s =
      ({ s with filteredGames := [], localFilteredGames := [],
                noResultsMessage := "Please enter search criteria" }, none) := by
  simp [handleSearch, jsTruthyStr, ht, hd, hp, hg, hpl]

/-- Concrete instantiation of the C4 theorem at a state with all-empty
criteria and stale results on display. -/
theorem spec_C4_witness :
    (demoEmptyCriteriaState.searchCriteria.title = "" ∧
     demoEmptyCriteriaState.searchCriteria.developer = "" ∧
     demoEmptyCriteriaState.searchCriteria.publisher = "" ∧
     demoEmptyCriteriaState.searchCriteria.genre = "" ∧
     demoEmptyCriteriaState.searchCriteria.platform = "") ∧
    handleSearch demoEmptyCriteriaState =
      ({ demoEmptyCriteriaState with
          filteredGames := [],
          localFilteredGames := [],
          noResultsMessage := "Please enter search criteria" }, none) :=
  ⟨⟨rfl, rfl, rfl, rfl, rfl⟩, spec_C4 demoEmptyCriteriaState rfl rfl rfl rfl rfl⟩

/-- Claim C7 (amended): clicking a title sets the single selected artwork to
`artwork_url` unchanged exactly when the URL starts with `"http"`, and
otherwise to the static-asset base joined with a slash; no other state
changes, the selection holds at most one artwork at a time, and closing the
artwork view clears the selection. -/
theorem spec_C7 (publicUrl url : String) (s : ClientState) :
    handleTitleClick publicUrl s url =
      { s with selectedGameArtwork := some (resolveArtwork publicUrl url) } ∧
    handleCloseArtwork s = { s with selectedGameArtwork := none } := by
  refine ⟨?_, rfl⟩
  cases h : strStartsWith url "http" <;> simp [handleTitleClick, resolveArtwork, h]

/-- Claim C7 counterexample: `"httpcover.png"` is a relative path (not an
absolute URL), yet clicking opens it unchanged instead of resolving it
against the static-asset base, because the code tests `startsWith('http')`. -/
theorem spec_C7_counterexample :
    isAbsoluteUrl "httpcover.png" = false ∧
    (handleTitleClick "/static" demoState "httpcover.png").selectedGameArtwork =
      some "httpcover.png" ∧
    ("httpcover.png" : String) ≠ "/static" ++ "/" ++ "httpcover.png" := by
  decide

/-- Claim C6: for every id absent from the store, both by-id endpoints return
an explicit not-found payload, and that response is distinct from the
server-error response produced when the store fails. -/
theorem spec_C6 (db : List GameRecord) (gid : Nat) (h : ∀ r ∈ db, r.id ≠ gid) :
    getVideogameById (.ok (selectById db gid)) = ⟨200, .message "Game not found"⟩ ∧
    getVideogameArtwork (.ok (selectArtworkById db gid)) =
      ⟨404, .message "Game not found"⟩ ∧
    getVideogameById (.ok (selectById db gid)) ≠ getVideogameById .failed ∧
    getVideogameArtwork (.ok (selectArtworkById db gid)) ≠
      getVideogameArtwork .failed := by
  have hfil : db.filter (fun r => r.id == gid) = [] := by
    rw [List.filter_eq_nil_iff]
    intro r hr
    simpa using h r hr
  refine ⟨?_, ?_, ?_, ?_⟩ <;>
    simp [selectById, selectArtworkById, hfil, getVideogameById, getVideogameArtwork]

/-- Concrete instantiation of the C6 theorem: the spec's example id 99999 is
absent from a one-row store. -/
theorem spec_C6_witness :
    (∀ r ∈ [recAbc], r.id ≠ 99999) ∧
    (getVideogameById (.ok (selectById [recAbc] 99999)) =
        ⟨200, .message "Game not found"⟩ ∧
      getVideogameArtwork (.ok (selectArtworkById [recAbc] 99999)) =
        ⟨404, .message "Game not found"⟩ ∧
      getVideogameById (.ok (selectById [recAbc] 99999)) ≠ getVideogameById .failed ∧
      getVideogameArtwork (.ok (selectArtworkById [recAbc] 99999)) ≠
        getVideogameArtwork .failed) :=
  ⟨by decide, spec_C6 [recAbc] 99999 (by decide)⟩

/-- Claim C10: for every id absent from the store, `GET /videogames/:id`
answers with HTTP status 200 and the body `{"message": "Game not found"}`,
while `GET /videogames/:id/artwork` answers with status 404 and the same
body. -/
theorem spec_C10 (db : List GameRecord) (gid : Nat) (h : ∀ r ∈ db, r.id ≠ gid) :
    (getVideogameById (.ok (selectById db gid))).status = 200 ∧
    (getVideogameById (.ok (selectById db gid))).body = .message "Game not found" ∧
    (getVideogameArtwork (.ok (selectArtworkById db gid))).status = 404 ∧
    (getVideogameArtwork (.ok (selectArtworkById db gid))).body =
      .message "Game not found" := by
  have hfil : db.filter (fun r => r.id == gid) = [] := by
    rw [List.filter_eq_nil_iff]
    intro r hr
    simpa using h r hr
  refine ⟨?_, ?_, ?_, ?_⟩ <;>
    simp [selectById, selectArtworkById, hfil, getVideogameById, getVideogameArtwork]

/-- Concrete instantiation of the C10 theorem at a one-row store and an
absent id. -/
theorem spec_C10_witness :
    (∀ r ∈ [recSonic], r.id ≠ 424242) ∧
    ((getVideogameById (.ok (selectById [recSonic] 424242))).status = 200 ∧
      (getVideogameById (.ok (selectById [recSonic] 424242))).body =
        .message "Game not found" ∧
      (getVideogameArtwork (.ok (selectArtworkById [recSonic] 424242))).status = 404 ∧
      (getVideogameArtwork (.ok (selectArtworkById [recSonic] 424242))).body =
        .message "Game not found") :=
  ⟨by decide, spec_C10 [recSonic] 424242 (by decide)⟩

/-- Claim C2 (divergence evidence): `debouncedServerSearch` compares no
request token, so responses take effect in completion order.  When request
A's stale response `[recMario]` arrives after request B's response
`[recSonic]`, the displayed result set ends up reflecting A, not B. -/
theorem spec_C2_bug :
    displayedGames
      (debouncedServerSearchApply
        (debouncedServerSearchApply demoState (.success [recSonic]))
        (.success [recMario])) = [recMario] ∧
    ([recMario] : List GameRecord) ≠ [recSonic] := by
  decide

/-- Claim C8 (divergence evidence): the catch branch of the client fetch only
logs to the console, so a failed search leaves the previously displayed
results in place and surfaces no user-visible message. -/
theorem spec_C8_bug :
    debouncedServerSearchApply demoState .failure = demoState ∧
    demoState.filteredGames ≠ [] ∧
    demoState.noResultsMessage = "" := by
  decide

/-- Claim C1 counterexample: with the single filter `title=a_c` the store
returns the record titled `"abc"`, although its title does not contain the
supplied value as a (case-insensitive) substring — the underscore in the
value acts as a LIKE wildcard, so matching is not substring containment. -/
theorem spec_C1_counterexample :
    runVideogames [recAbc] qUnderscore = [recAbc] ∧
    containsCI recAbc.title "a_c" = false := by
  decide

/-- Claim C1 (amended): a row is returned by `GET /videogames` exactly when it
is in the catalog and, for each filter parameter that is supplied non-empty,
its corresponding field matches the pattern `%value%` under case-insensitive
SQL LIKE semantics (in which `%` and `_` in the value act as wildcards);
omitted or empty parameters impose no constraint, matching across supplied
fields is conjunctive, and a request with no parameters returns the full
catalog. -/
theorem spec_C1 (db : List GameRecord) (q : VideogamesQuery) (r : GameRecord) :
    (r ∈ runVideogames db q ↔ r ∈ db ∧
      (jsTruthy q.title → sqlLike ("%" ++ q.title.getD "" ++ "%") r.title) ∧
      (jsTruthy q.developer → sqlLike ("%" ++ q.developer.getD "" ++ "%") r.developer) ∧
      (jsTruthy q.publisher → sqlLike ("%" ++ q.publisher.getD "" ++ "%") r.publisher) ∧
      (jsTruthy q.genre → sqlLike ("%" ++ q.genre.getD "" ++ "%") r.genre) ∧
      (jsTruthy q.platform → sqlLike ("%" ++ q.platform.getD "" ++ "%") r.platform)) ∧
    runVideogames db emptyQuery = db := by
  constructor
  · simp only [runVideogames, List.mem_filter, activeFilters, List.all_append]
    cases hT : jsTruthy q.title <;> cases hD : jsTruthy q.developer <;>
      cases hP : jsTruthy q.publisher <;> cases hG : jsTruthy q.genre <;>
      cases hPl : jsTruthy q.platform <;>
      simp [hT, hD, hP, hG, hPl, fieldOf, and_assoc]
  · simp [runVideogames, activeFilters, emptyQuery, jsTruthy]

/-- Claim C3 counterexample: a whitespace-only filter value is truthy in JS,
so it does contribute a `LIKE '% %'` condition; against a catalog whose only
row has no space in its title, the request `title=' '` returns nothing while
the same request without the parameter returns the row. -/
theorem spec_C3_counterexample :
    runVideogames [recAbc] qWhitespaceTitle = [] ∧
    runVideogames [recAbc] emptyQuery = [recAbc] ∧
    ([] : List GameRecord) ≠ [recAbc] := by
  decide

/-- Claim C3 (amended): a filter parameter supplied with the empty string is
falsy, contributes no condition to the store predicate, and the response —
SQL text, bound parameters, and returned rows — is identical to the response
for the same request with that parameter omitted; whitespace-only values, by
contrast, are truthy and do contribute a condition. -/
theorem spec_C3 (db : List GameRecord) (q : VideogamesQuery) (f : GameField)
    (h : getQField f q = some "") :
    runVideogames db q = runVideogames db (setQField f none q) ∧
    videogamesQueryText q = videogamesQueryText (setQField f none q) ∧
    videogamesQueryParams q = videogamesQueryParams (setQField f none q) := by
  cases f <;> obtain ⟨t, d, p, g, pl⟩ := q <;>
    simp_all [getQField, setQField, activeFilters, videogamesQueryText,
      videogamesQueryParams, jsTruthy, runVideogames]

/-- Concrete instantiation of the C3 theorem: `title=` (supplied empty)
behaves exactly like omitting `title`. -/
theorem spec_C3_witness :
    getQField GameField.title qEmptyTitle = some "" ∧
    (runVideogames [recSonic] qEmptyTitle =
        runVideogames [recSonic] (setQField GameField.title none qEmptyTitle) ∧
      videogamesQueryText qEmptyTitle =
        videogamesQueryText (setQField GameField.title none qEmptyTitle) ∧
      videogamesQueryParams qEmptyTitle =
        videogamesQueryParams (setQField GameField.title none qEmptyTitle)) :=
  ⟨rfl, spec_C3 [recSonic] qEmptyTitle GameField.title rfl⟩

/-- Claim C9 counterexample: the parameter `title` is supplied in both
requests (`title=` and `title=a`), yet the built SQL texts differ, because
the builder keys on JS truthiness of the value, not on presence alone. -/
theorem spec_C9_counterexample :
    qEmptyTitle.title.isSome = qTitleA.title.isSome ∧
    videogamesQueryText qEmptyTitle ≠ videogamesQueryText qTitleA := by
  decide

/-- Claim C9 (amended): the SQL text built for `GET /videogames` depends only
on which filter parameters are supplied with non-empty (truthy) values —
two requests agreeing on per-field truthiness produce identical query text —
each active filter contributes exactly one `?` placeholder, and every
user-supplied value appears only in the bound-parameter list wrapped as
`%value%`, never in the query text. -/
theorem spec_C9 (q1 q2 : VideogamesQuery)
    (h1 : jsTruthy q1.title = jsTruthy q2.title)
    (h2 : jsTruthy q1.developer = jsTruthy q2.developer)
    (h3 : jsTruthy q1.publisher = jsTruthy q2.publisher)
    (h4 : jsTruthy q1.genre = jsTruthy q2.genre)
    (h5 : jsTruthy q1.platform = jsTruthy q2.platform) :
    videogamesQueryText q1 = videogamesQueryText q2 ∧
    countChar '?' (videogamesQueryText q1) = (videogamesQueryParams q1).length ∧
    videogamesQueryParams q1 = (activeFilters q1).map (fun c => "%" ++ c.2 ++ "%") := by
  have k1 : jsTruthy q2.title = jsTruthy q1.title := h1.symm
  have k2 : jsTruthy q2.developer = jsTruthy q1.developer := h2.symm
  have k3 : jsTruthy q2.publisher = jsTruthy q1.publisher := h3.symm
  have k4 : jsTruthy q2.genre = jsTruthy q1.genre := h4.symm
  have k5 : jsTruthy q2.platform = jsTruthy q1.platform := h5.symm
  refine ⟨?_, ?_, rfl⟩
  · cases hT : jsTruthy q1.title <;> cases hD : jsTruthy q1.developer <;>
      cases hP : jsTruthy q1.publisher <;> cases hG : jsTruthy q1.genre <;>
      cases hPl : jsTruthy q1.platform <;>
      simp [videogamesQueryText, activeFilters, k1, k2, k3, k4, k5,
        hT, hD, hP, hG, hPl]
  · cases hT : jsTruthy q1.title <;> cases hD : jsTruthy q1.developer <;>
      cases hP : jsTruthy q1.publisher <;> cases hG : jsTruthy q1.genre <;>
      cases hPl : jsTruthy q1.platform <;>
      simp [videogamesQueryText, videogamesQueryParams, activeFilters,
        hT, hD, hP, hG, hPl] <;>
      decide

/-- Concrete instantiation of the C9 theorem: `title=mario` and `title=zelda`
agree on truthiness, so the built SQL text is identical. -/
theorem spec_C9_witness :
    (jsTruthy qMario.title = jsTruthy qZelda.title ∧
     jsTruthy qMario.developer = jsTruthy qZelda.developer ∧
     jsTruthy qMario.publisher = jsTruthy qZelda.publisher ∧
     jsTruthy qMario.genre = jsTruthy qZelda.genre ∧
     jsTruthy qMario.platform = jsTruthy qZelda.platform) ∧
    (videogamesQueryText qMario = videogamesQueryText qZelda ∧
      countChar '?' (videogamesQueryText qMario) = (videogamesQueryParams qMario).length ∧
      videogamesQueryParams qMario = (activeFilters qMario).map (fun c => "%" ++ c.2 ++ "%")) :=
  ⟨⟨by decide, by decide, by decide, by decide, by decide⟩,
    spec_C9 qMario qZelda (by decide) (by decide) (by decide) (by decide) (by decide)⟩

/-- The title comparator is transitive. -/
theorem titleLe_trans (a b c : GameRecord) (hab : titleLe a b) (hbc : titleLe b c) :
    titleLe a c := by
  simp only [titleLe, decide_eq_true_eq] at *
  exact le_trans hab hbc

/-- The title comparator is total. -/
theorem titleLe_total (a b : GameRecord) : titleLe a b || titleLe b a := by
  simp only [titleLe, Bool.or_eq_true, decide_eq_true_eq]
  exact le_total _ _

/-- The release-date comparator is transitive. -/
theorem dateLe_trans (a b c : GameRecord) (hab : dateLe a b) (hbc : dateLe b c) :
    dateLe a c := by
  simp only [dateLe, decide_eq_true_eq] at *
  exact le_trans hab hbc

/-- The release-date comparator is total. -/
theorem dateLe_total (a b : GameRecord) : dateLe a b || dateLe b a := by
  simp only [dateLe, Bool.or_eq_true, decide_eq_true_eq]
  exact le_total _ _

/-- Stability of `mergeSort`, phrased on key classes: when all elements
selected by `p` compare equal under `le`, sorting does not reorder them. -/
theorem filter_mergeSort_of_ties {α : Type} (le : α → α → Bool)
    (htrans : ∀ (a b c : α), le a b → le b c → le a c)
    (htotal : ∀ (a b : α), le a b || le b a)
    (p : α → Bool) (hp : ∀ a b, p a = true → p b = true → le a b = true)
    (l : List α) : (l.mergeSort le).filter p = l.filter p := by
  have hpw : (l.filter p).Pairwise (fun a b => le a b = true) :=
    List.pairwise_of_forall_mem_list (fun a ha b hb =>
      hp a b (List.of_mem_filter ha) (List.of_mem_filter hb))
  have hsub : List.Sublist (l.filter p) (l.mergeSort le) :=
    List.sublist_mergeSort htrans htotal hpw (List.filter_sublist l)
  have hself : (l.filter p).filter p = l.filter p :=
    List.filter_eq_self.mpr (fun a ha => List.of_mem_filter ha)
  have hsub2 : List.Sublist (l.filter p) ((l.mergeSort le).filter p) := by
    have h := hsub.filter p
    rwa [hself] at h
  have hlen : ((l.mergeSort le).filter p).length = (l.filter p).length :=
    ((List.mergeSort_perm l le).filter p).length_eq
  exact (hsub2.eq_of_length hlen.symm).symm

/-- Claim C5: sorting the displayed result set by title yields a
lexicographically ascending sequence and sorting by release date a
chronologically ascending one; both sorts are stable (records with equal
keys keep their original relative order), applying the same sort twice
yields the same sequence as applying it once, and neither sort hands any
criteria to the server (no fetch is issued). -/
theorem spec_C5 (s : ClientState) :
    (handleSortByTitle s).2 = none ∧
    (handleSortByReleaseDate s).2 = none ∧
    ((handleSortByTitle s).1.filteredGames.Pairwise fun a b => a.title ≤ b.title) ∧
    ((handleSortByReleaseDate s).1.filteredGames.Pairwise fun a b =>
      a.release_date ≤ b.release_date) ∧
    (handleSortByTitle (handleSortByTitle s).1).1.filteredGames =
      (handleSortByTitle s).1.filteredGames ∧
    (handleSortByReleaseDate (handleSortByReleaseDate s).1).1.filteredGames =
      (handleSortByReleaseDate s).1.filteredGames ∧
    (∀ t : String,
      (handleSortByTitle s).1.filteredGames.filter (fun g => g.title == t) =
        s.filteredGames.filter (fun g => g.title == t)) ∧
    (∀ d : Int,
      (handleSortByReleaseDate s).1.filteredGames.filter (fun g => g.release_date == d) =
        s.filteredGames.filter (fun g => g.release_date == d)) := by
  refine ⟨rfl, rfl, ?_, ?_, ?_, ?_, ?_, ?_⟩
  · exact (List.sorted_mergeSort titleLe_trans titleLe_total s.filteredGames).imp
      (fun h => by simpa [titleLe] using h)
  · exact (List.sorted_mergeSort dateLe_trans dateLe_total s.filteredGames).imp
      (fun h => by simpa [dateLe] using h)
  · exact congrArg (fun l => { s with filteredGames := l }.filteredGames)
      (List.mergeSort_of_sorted
        (List.sorted_mergeSort titleLe_trans titleLe_total s.filteredGames))
  · exact congrArg (fun l => { s with filteredGames := l }.filteredGames)
      (List.mergeSort_of_sorted
        (List.sorted_mergeSort dateLe_trans dateLe_total s.filteredGames))
  · intro t
    refine filter_mergeSort_of_ties titleLe titleLe_trans titleLe_total _ ?_
      s.filteredGames
    intro a b ha hb
    have ha1 : a.title = t := by simpa using ha
    have hb1 : b.title = t := by simpa using hb
    simp [titleLe, ha1, hb1]
  · intro d
    refine filter_mergeSort_of_ties dateLe dateLe_trans dateLe_total _ ?_
      s.filteredGames
    intro a b ha hb
    have ha1 : a.release_date = d := by simpa using ha
    have hb1 : b.release_date = d := by simpa using hb
    simp [dateLe, ha1, hb1]
